import Mathlib

/-!
# Reson8 signaling server — shallow embedding and verification

This file embeds the parts of the Reson8 signaling server relevant to the
frozen claims and proves or refutes each claim.

Sources embedded:
* `apps/server/src/services/permissions.service.ts` (`hasPermission`)
* `apps/server/src/services/channel-tree.service.ts` (`buildChannelTree`)
* `apps/server/src/services/presence.service.ts` (`PresenceService`)
* `apps/server/src/handlers/channel.handler.ts` (channel CRUD handlers)
* `apps/server/src/handlers/message.handler.ts` (SEND_MESSAGE, FETCH_MESSAGES)
* `apps/server/src/handlers/connection.handler.ts` (disconnect cleanup)
* the voice handler (CONSUME, CLOSE_PRODUCER and the producerclose cascade)

JavaScript `Array.prototype.sort` with a numeric comparator is a *stable*
sort (ECMAScript 2019+); the stable sort for a given total preorder is
unique, so it is modelled by `List.insertionSort`, which is stable for the
given relation.  JS `bigint` permission masks are non-negative here and are
modelled as `Nat`.  Database timestamps are modelled as `Nat` (ISO-8601
strings compare chronologically).
-/

namespace Reson8

/-! ## Permission flags (`packages/shared-types/src/models.ts`) -/

def CONNECT : Nat := 1
def SPEAK : Nat := 2
def SEND_MESSAGES : Nat := 4
def CREATE_CHANNEL : Nat := 8
def MANAGE_CHANNELS : Nat := 16
def MANAGE_ROLES : Nat := 32
def KICK_USER : Nat := 64
def BAN_USER : Nat := 128
def ADMIN : Nat := 256

/-! ## `permissions.service.ts` -/

/-- `hasPermission(userPerms, flag)`: ADMIN bypasses all checks, otherwise
`(userPerms & flag) === flag`. -/
def hasPermission (userPerms flag : Nat) : Bool :=
  if userPerms &&& ADMIN == ADMIN then true
  else userPerms &&& flag == flag

/-! ## `presence.service.ts`

Redis state: `presence:server:{id}` and `presence:channel:{id}` are sets of
user ids (modelled as `List String` without duplicates via guarded insert),
`presence:user:{id}` is a hash of up to three string fields (modelled as a
record of `Option String`, `none` = field absent, the whole hash absent is
`none` at the outer `Option`).  Redis `HGET` of a missing hash or field is
`null`; JS truthiness makes both `null` and `""` falsy. -/

structure UserHash where
  serverId : Option String
  channelId : Option String
  nickname : Option String
deriving DecidableEq

structure PresenceState where
  serverMembers : String → List String
  channelMembers : String → List String
  userHash : String → Option UserHash

/-- JS truthiness of a Redis `HGET` reply: `null` and `""` are falsy. -/
def truthy : Option String → Bool
  | none => false
  | some s => !s.isEmpty

/-- Redis `SADD`. -/
def saddList (l : List String) (x : String) : List String :=
  if x ∈ l then l else x :: l

/-- Redis `SREM`. -/
def sremList (l : List String) (x : String) : List String :=
  l.filter (fun y => y ≠ x)

/-- `PresenceService.joinServer`: `SADD` to the server set, `HSET` all three
hash fields (channelId set to `""`). -/
def joinServer (st : PresenceState) (userId serverId nickname : String) :
    PresenceState :=
  { st with
    serverMembers := fun k =>
      if k = serverId then saddList (st.serverMembers serverId) userId
      else st.serverMembers k
    userHash := fun k =>
      if k = userId then
        some { serverId := some serverId, channelId := some ""
               nickname := some nickname }
      else st.userHash k }

/-- `PresenceService.joinChannel`: read the previous channel from the user
hash; `SREM` from it when truthy; `SADD` to the new channel; `HSET` the
`channelId` field (creating the hash when absent). -/
def joinChannel (st : PresenceState) (userId channelId : String) :
    PresenceState :=
  let prevChannelId := (st.userHash userId).bind (·.channelId)
  let afterLeave : PresenceState :=
    match prevChannelId with
    | some prev =>
      if prev.isEmpty then st
      else
        { st with
          channelMembers := fun k =>
            if k = prev then sremList (st.channelMembers prev) userId
            else st.channelMembers k }
    | none => st
  { afterLeave with
    channelMembers := fun k =>
      if k = channelId then
        saddList (afterLeave.channelMembers channelId) userId
      else afterLeave.channelMembers k
    userHash := fun k =>
      if k = userId then
        some
          { serverId := ((st.userHash userId).map (·.serverId)).getD none
            channelId := some channelId
            nickname := ((st.userHash userId).map (·.nickname)).getD none }
      else st.userHash k }

/-- `PresenceService.leaveChannel`: `SREM` from the channel set and `HSET`
the `channelId` field to `""`. -/
def leaveChannel (st : PresenceState) (userId channelId : String) :
    PresenceState :=
  { st with
    channelMembers := fun k =>
      if k = channelId then sremList (st.channelMembers channelId) userId
      else st.channelMembers k
    userHash := fun k =>
      if k = userId then
        some
          { serverId := ((st.userHash userId).map (·.serverId)).getD none
            channelId := some ""
            nickname := ((st.userHash userId).map (·.nickname)).getD none }
      else st.userHash k }

/-- `PresenceService.leaveServer`: read `channelId` from the user hash;
`SREM` from that channel when truthy; `SREM` from the server set; `DEL` the
user hash. -/
def leaveServer (st : PresenceState) (userId serverId : String) :
    PresenceState :=
  let channelId := (st.userHash userId).bind (·.channelId)
  let afterChannel : PresenceState :=
    match channelId with
    | some ch =>
      if ch.isEmpty then st
      else
        { st with
          channelMembers := fun k =>
            if k = ch then sremList (st.channelMembers ch) userId
            else st.channelMembers k }
    | none => st
  { afterChannel with
    serverMembers := fun k =>
      if k = serverId then sremList (afterChannel.serverMembers serverId) userId
      else afterChannel.serverMembers k
    userHash := fun k =>
      if k = userId then none else afterChannel.userHash k }

/-! ## `channel-tree.service.ts`

`buildChannelTree` builds a `Map` from id to node (children empty), then
pushes every node with a present parent into that parent's `children`
(input order), collecting nodes with `parentId === null` or a dangling
parent as roots (input order); finally it sorts the roots and every
children array of length > 1 by `position` via the stable JS sort.

The pure model computes each node's children as the input-order sublist of
records pointing at it, stably sorted; node construction recurses on a fuel
bounded by the list length, which covers every ancestor chain of
duplicate-free ids, so every node reachable from a root is fully built. -/

inductive ChannelType where
  | TEXT
  | VOICE
deriving DecidableEq

structure Channel where
  id : String
  serverId : String
  name : String
  type : ChannelType
  parentId : Option String
  position : Int
  maxUsers : Option Int
  createdAt : String
deriving DecidableEq

inductive ChannelTreeNode where
  | node (channel : Channel) (children : List ChannelTreeNode)
      (occupants : List String)

def ChannelTreeNode.channel : ChannelTreeNode → Channel
  | .node c _ _ => c

def ChannelTreeNode.children : ChannelTreeNode → List ChannelTreeNode
  | .node _ cs _ => cs

/-- The JS sort comparator `(a, b) => a.position - b.position`. -/
def posLe (a b : Channel) : Prop := a.position ≤ b.position

instance : DecidableRel posLe := fun a b =>
  inferInstanceAs (Decidable (a.position ≤ b.position))

instance : IsTotal Channel posLe := ⟨fun a b => Int.le_total a.position b.position⟩

instance : IsTrans Channel posLe := ⟨fun _ _ _ => Int.le_trans⟩

/-- Records whose `parentId` names the given id (in input order): the list
a present parent's `children` receives before sorting. -/
def childRecords (channels : List Channel) (pid : String) : List Channel :=
  channels.filter (fun c => c.parentId = some pid)

/-- Roots before sorting: `parentId === null`, or an orphan whose parent id
is not in the node map. -/
def rootRecords (channels : List Channel) : List Channel :=
  channels.filter (fun c =>
    match c.parentId with
    | none => true
    | some p => !(channels.any (fun d => d.id = p)))

/-- `children.sort(...)` is applied only when `children.length > 1`. -/
def sortSiblings (l : List Channel) : List Channel :=
  if l.length > 1 then l.insertionSort posLe else l

def buildNode (channels : List Channel) : Nat → Channel → ChannelTreeNode
  | 0, c => .node c [] []
  | fuel + 1, c =>
    .node c
      ((sortSiblings (childRecords channels c.id)).map
        (buildNode channels fuel))
      []

/-- `buildChannelTree(channels)`: sorted roots, each fully expanded.
`occupants` is always left `[]` by the builder. -/
def buildChannelTree (channels : List Channel) : List ChannelTreeNode :=
  ((rootRecords channels).insertionSort posLe).map
    (buildNode channels channels.length)

mutual

/-- A node together with all of its descendants. -/
def allNodes : ChannelTreeNode → List ChannelTreeNode
  | .node c cs occ => .node c cs occ :: allNodesList cs

/-- All nodes of a forest. -/
def allNodesList : List ChannelTreeNode → List ChannelTreeNode
  | [] => []
  | t :: ts => allNodes t ++ allNodesList ts

end

/-! ## `message.handler.ts` — FETCH_MESSAGES

A stored message row; `createdAt` is a timestamp (`Nat`). -/

structure StoredMessage where
  id : String
  channelId : String
  userId : String
  content : String
  createdAt : Nat
deriving DecidableEq

/-- `orderBy: { createdAt: "desc" }`. -/
def createdDesc (a b : StoredMessage) : Prop := b.createdAt ≤ a.createdAt

instance : DecidableRel createdDesc := fun a b =>
  inferInstanceAs (Decidable (b.createdAt ≤ a.createdAt))

instance : IsTotal StoredMessage createdDesc :=
  ⟨fun a b => Nat.le_total b.createdAt a.createdAt⟩

instance : IsTrans StoredMessage createdDesc :=
  ⟨fun _ _ _ h h' => Nat.le_trans h' h⟩

/-- The FETCH_MESSAGES query: filter by channel and optional `before`
cursor (strict), order newest-first, `take = min(limit, 100)` (default 50),
then `.reverse()` into chronological ascending order. -/
def fetchMessages (store : List StoredMessage) (channelId : String)
    (before : Option Nat) (limit : Option Nat) : List StoredMessage :=
  let takeN := min (limit.getD 50) 100
  let filtered := store.filter (fun m =>
    m.channelId = channelId &&
      match before with
      | some b => m.createdAt < b
      | none => true)
  (((filtered.insertionSort createdDesc).take takeN).reverse)

/-- JS `String.prototype.trim`: strip leading and trailing whitespace
(modelled over the character list). -/
def jsTrim (s : String) : String :=
  ⟨((s.data.dropWhile Char.isWhitespace).reverse.dropWhile
      Char.isWhitespace).reverse⟩

/-! ## Outbound events and rooms -/

structure MessageDTO where
  id : String
  channelId : String
  userId : String
  nickname : String
  content : String
  createdAt : Nat
deriving DecidableEq

inductive OutEvent where
  | CHANNEL_TREE_UPDATE (serverId : String) (tree : List ChannelTreeNode)
  | CHANNEL_DELETED (serverId : String) (channelId : String)
  | MESSAGE_RECEIVED (msg : MessageDTO)
  | PRESENCE_UPDATE (channelId : String) (occupants : List String)
  | USER_LEFT (userId : String) (serverId : String)
  | PRODUCER_CLOSED (userId : String) (producerId : String)
  | NEW_PRODUCER (userId : String) (nickname : String) (producerId : String)
  | ERROR (code : String) (message : String)

/-- `io.to(room)` delivers to all subscribers; `socket.to(room)` to all but
the emitting session; `socket.emit` only to the caller. -/
inductive EmitTarget where
  | allInRoom (room : String)
  | othersInRoom (room : String)
  | caller
deriving DecidableEq

structure Emit where
  target : EmitTarget
  event : OutEvent

def serverRoom (id : String) : String := "server:" ++ id
def channelRoom (id : String) : String := "channel:" ++ id

def OutEvent.isUserLeft : OutEvent → Bool
  | .USER_LEFT _ _ => true
  | _ => false

/-- `socket.data`; `userId`/`serverId` are `undefined` before
USER_JOIN_SERVER, modelled as `none`. -/
structure SocketDataModel where
  userId : Option String
  nickname : String
  serverId : Option String
  currentChannelId : Option String

/-! ## `permissions.middleware.ts`

`userPerms` stands for the `getUserPermissions` aggregate: the bitwise OR
of the permission masks of every role the user holds on the server. -/

def requirePermission (sock : SocketDataModel) (userPerms flag : Nat) :
    Bool × List Emit :=
  match sock.userId, sock.serverId with
  | some _, some _ =>
    if hasPermission userPerms flag then (true, [])
    else
      (false,
        [{ target := .caller
           event := .ERROR "PERMISSION_DENIED"
             "You do not have permission to perform this action." }])
  | _, _ =>
    (false,
      [{ target := .caller
         event := .ERROR "NOT_AUTHENTICATED"
           "You must join a server before performing this action." }])

/-! ## `channel.handler.ts`

Note: these three handlers perform **no** permission check — they never
call `requirePermission` and receive no permission mask at all; the model
mirrors that. -/

/-- `broadcastTreeUpdate`: re-read the server's channels ordered by
`position` ascending, rebuild the tree, emit to the full server room. -/
def broadcastTreeUpdate (db : List Channel) (serverId : String) : Emit :=
  let channels := (db.filter (fun c => c.serverId = serverId)).insertionSort posLe
  { target := .allInRoom (serverRoom serverId)
    event := .CHANNEL_TREE_UPDATE serverId (buildChannelTree channels) }

/-- `getNextPosition`: `(max sibling position ?? -1) + 1`. -/
def getNextPosition (db : List Channel) (serverId : String)
    (parentId : Option String) : Int :=
  let ps := ((db.filter (fun c =>
    c.serverId = serverId && c.parentId = parentId)).map (·.position)).max?
  ps.getD (-1) + 1

structure CreateChannelPayload where
  serverId : String
  name : String
  type : ChannelType
  parentId : Option String

structure CreateAck where
  success : Bool
  channelId : Option String := none
  error : Option String := none
deriving DecidableEq

structure SimpleAck where
  success : Bool
  error : Option String := none
deriving DecidableEq

/-- CREATE_CHANNEL: reject an empty (trimmed) name, persist with the next
sibling position, ack success, broadcast the rebuilt tree. -/
def createChannelHandler (db : List Channel) (p : CreateChannelPayload)
    (newId newCreatedAt : String) : CreateAck × List Channel × List Emit :=
  if (jsTrim p.name).data.isEmpty then
    ({ success := false, error := some "Channel name is required" }, db, [])
  else
    let ch : Channel :=
      { id := newId, serverId := p.serverId, name := jsTrim p.name
        type := p.type, parentId := p.parentId
        position := getNextPosition db p.serverId p.parentId
        maxUsers := none, createdAt := newCreatedAt }
    let db' := db ++ [ch]
    ({ success := true, channelId := some newId }, db',
      [broadcastTreeUpdate db' p.serverId])

/-- DELETE_CHANNEL: not-found check, delete (children's `parentId` set to
null by the schema's `onDelete: SetNull`; messages cascade in the message
store, not modelled here), broadcast tree then CHANNEL_DELETED. -/
def deleteChannelHandler (db : List Channel) (channelId : String) :
    SimpleAck × List Channel × List Emit :=
  match db.find? (fun c => c.id = channelId) with
  | none => ({ success := false, error := some "Channel not found" }, db, [])
  | some channel =>
    let db' := (db.filter (fun c => c.id ≠ channelId)).map (fun c =>
      if c.parentId = some channelId then { c with parentId := none } else c)
    ({ success := true }, db',
      [broadcastTreeUpdate db' channel.serverId,
        { target := .allInRoom (serverRoom channel.serverId)
          event := .CHANNEL_DELETED channel.serverId channelId }])

structure UpdateChannelPayload where
  channelId : String
  name : Option String
  position : Option Int

/-- UPDATE_CHANNEL: reject an empty change set; a missing row makes the
Prisma `update` throw, caught as a failure ack; otherwise apply the
changes (name trimmed) and broadcast the rebuilt tree. -/
def updateChannelHandler (db : List Channel) (p : UpdateChannelPayload) :
    SimpleAck × List Channel × List Emit :=
  if p.name = none ∧ p.position = none then
    ({ success := false, error := some "No changes provided" }, db, [])
  else
    match db.find? (fun c => c.id = p.channelId) with
    | none =>
      ({ success := false, error := some "Failed to update channel" }, db, [])
    | some channel =>
      let db' := db.map (fun c =>
        if c.id = p.channelId then
          { c with name := (p.name.map jsTrim).getD c.name
                   position := p.position.getD c.position }
        else c)
      ({ success := true }, db', [broadcastTreeUpdate db' channel.serverId])

/-! ## `message.handler.ts` — SEND_MESSAGE -/

structure SendAck where
  success : Bool
  messageId : Option String := none
deriving DecidableEq

/-- SEND_MESSAGE: trim/empty rejection, SEND_MESSAGES permission check,
channel existence check (no channel-type check), persist the trimmed
content, broadcast MESSAGE_RECEIVED to the full server room, ack. -/
def sendMessageHandler (userPerms : Nat) (sock : SocketDataModel)
    (channels : List Channel) (msgs : List StoredMessage)
    (channelId content : String) (newId : String) (now : Nat) :
    SendAck × List StoredMessage × List Emit :=
  if (jsTrim content).data.isEmpty then ({ success := false }, msgs, [])
  else
    let check := requirePermission sock userPerms SEND_MESSAGES
    if !check.1 then ({ success := false }, msgs, check.2)
    else
      match channels.find? (fun c => c.id = channelId) with
      | none => ({ success := false }, msgs, [])
      | some _ =>
        let message : StoredMessage :=
          { id := newId, channelId := channelId
            userId := sock.userId.getD ""
            content := jsTrim content, createdAt := now }
        let dto : MessageDTO :=
          { id := message.id, channelId := message.channelId
            userId := message.userId, nickname := sock.nickname
            content := message.content, createdAt := message.createdAt }
        ({ success := true, messageId := some newId }, msgs ++ [message],
          [{ target := .allInRoom (serverRoom (sock.serverId.getD ""))
             event := .MESSAGE_RECEIVED dto }])

/-! ## Voice handler (CONSUME, CLOSE_PRODUCER, producerclose cascade) -/

structure Transport where
  id : String
deriving DecidableEq

structure Producer where
  id : String
deriving DecidableEq

structure Consumer where
  id : String
  producerId : String
  kind : String
  rtpParameters : String
  paused : Bool
deriving DecidableEq

/-- Per-`(channel, user)` voice session (`UserVoiceSession`). The consumer
map is an association list keyed by consumer id. -/
structure UserVoiceSession where
  sendTransport : Option Transport
  recvTransport : Option Transport
  producer : Option Producer
  consumers : List (String × Consumer)
deriving DecidableEq

/-- `Map.set`. -/
def setConsumer (m : List (String × Consumer)) (k : String) (v : Consumer) :
    List (String × Consumer) :=
  (k, v) :: m.filter (fun p => p.1 ≠ k)

/-- `Map.delete`. -/
def delConsumer (m : List (String × Consumer)) (k : String) :
    List (String × Consumer) :=
  m.filter (fun p => p.1 ≠ k)

/-- The channel's mediasoup router, as the handler observes it:
capability descriptor plus the `canConsume(producerId, rtpCapabilities)`
predicate. -/
structure RouterModel where
  rtpCapabilities : String
  canConsume : String → String → Bool

/-- What `recvTransport.consume` returns for the new consumer (the SFU
allocates the id and negotiates kind/parameters). -/
structure ConsumerFactory where
  newConsumerId : String
  newKind : String
  newRtpParameters : String

structure ConsumerInfo where
  id : String
  producerId : String
  kind : String
  rtpParameters : String
deriving DecidableEq

inductive ConsumeAck where
  | ok (consumer : ConsumerInfo)
  | err (message : String)
deriving DecidableEq

/-- CONSUME: channel check; `!router || !session?.recvTransport` check;
`router.canConsume` check (negative ack on failure); consume on the recv
transport with `paused: true`; store in the session's consumer map; ack
with id, source producer id, kind and RTP parameters. -/
def consumeHandler (router : Option RouterModel) (factory : ConsumerFactory)
    (sock : SocketDataModel) (session : Option UserVoiceSession)
    (producerId : String) (rtpCapabilities : Option String) :
    ConsumeAck × Option UserVoiceSession :=
  match sock.currentChannelId with
  | none => (.err "Not in a channel", session)
  | some _ =>
    match router, session with
    | some r, some s =>
      match s.recvTransport with
      | some _ =>
        let caps := rtpCapabilities.getD r.rtpCapabilities
        if !(r.canConsume producerId caps) then
          (.err "Cannot consume producer", session)
        else
          let consumer : Consumer :=
            { id := factory.newConsumerId, producerId := producerId
              kind := factory.newKind
              rtpParameters := factory.newRtpParameters, paused := true }
          (.ok { id := consumer.id, producerId := consumer.producerId
                 kind := consumer.kind
                 rtpParameters := consumer.rtpParameters },
            some { s with
              consumers := setConsumer s.consumers consumer.id consumer })
      | none => (.err "Recv transport not ready", session)
    | _, _ => (.err "Recv transport not ready", session)

/-- The `producerclose` callback wired at CONSUME time: delete the consumer
from the session's map and send PRODUCER_CLOSED to the consuming socket
with `userId: ""` (the owner is unknown at the consumer site). -/
def onProducerclose (s : UserVoiceSession) (consumerId producerId : String) :
    UserVoiceSession × Emit :=
  ({ s with consumers := delConsumer s.consumers consumerId },
    { target := .caller, event := .PRODUCER_CLOSED "" producerId })

/-- CLOSE_PRODUCER: only when the supplied id matches the calling session's
own current producer: close it, clear the reference, broadcast
PRODUCER_CLOSED to the other members of the channel room. -/
def closeProducerHandler (sock : SocketDataModel)
    (session : Option UserVoiceSession) (producerId : String) :
    Option UserVoiceSession × List Emit :=
  match sock.currentChannelId with
  | none => (session, [])
  | some channelId =>
    match session with
    | some s =>
      match s.producer with
      | some pr =>
        if pr.id = producerId then
          (some { s with producer := none },
            [{ target := .othersInRoom (channelRoom channelId)
               event := .PRODUCER_CLOSED (sock.userId.getD "") producerId }])
        else (session, [])
      | none => (session, [])
    | none => (session, [])

/-! ## `connection.handler.ts` — disconnect cleanup

The whole cleanup runs inside a single `try { ... } catch` that only logs;
an exception in any awaited operation therefore aborts the remaining
steps.  `failAt` injects a failure into one of the fallible (store / SFU)
operations; broadcasts themselves do not throw. -/

inductive CleanupStep where
  | cleanupVoice
  | leaveChannelStep
  | readOccupants
  | leaveServerStep
deriving DecidableEq

structure ServerState where
  presence : PresenceState
  voiceSessions : String → String → Option UserVoiceSession

/-- The `disconnect` handler: (1) if in a channel — PRODUCER_CLOSED to the
channel room when a producer exists, SFU session cleanup, channel presence
cleanup, occupant read, PRESENCE_UPDATE to the server room; (2) server
presence cleanup; (3) USER_LEFT to the server room.  A failure surfaces as
`Except.error` carrying the effects so far and is caught at the end. -/
def disconnectHandler (failAt : Option CleanupStep) (sock : SocketDataModel)
    (st : ServerState) : ServerState × List Emit :=
  match sock.serverId with
  | none => (st, [])
  | some serverId =>
    let userId := sock.userId.getD ""
    let step := fun (s : CleanupStep)
        (f : ServerState × List Emit → ServerState × List Emit)
        (acc : ServerState × List Emit) =>
      if failAt = some s then Except.error acc else Except.ok (f acc)
    let phase1 := fun (acc : ServerState × List Emit) =>
      match sock.currentChannelId with
      | none => Except.ok acc
      | some channelId =>
        let producerEmits : List Emit :=
          match (acc.1.voiceSessions channelId userId).bind (·.producer) with
          | some pr =>
            [{ target := .othersInRoom (channelRoom channelId)
               event := .PRODUCER_CLOSED userId pr.id }]
          | none => []
        (Except.ok (acc.1, acc.2 ++ producerEmits)) >>=
          step .cleanupVoice (fun a =>
            ({ a.1 with voiceSessions := fun c u =>
                if c = channelId ∧ u = userId then none
                else a.1.voiceSessions c u }, a.2)) >>=
          step .leaveChannelStep (fun a =>
            ({ a.1 with presence := leaveChannel a.1.presence userId channelId },
              a.2)) >>=
          step .readOccupants (fun a => a) >>=
          fun a => Except.ok (a.1, a.2 ++
            [{ target := .allInRoom (serverRoom serverId)
               event := .PRESENCE_UPDATE channelId
                 (a.1.presence.channelMembers channelId) }])
    let result :=
      phase1 (st, []) >>=
        step .leaveServerStep (fun a =>
          ({ a.1 with presence := leaveServer a.1.presence userId serverId },
            a.2)) >>=
        fun a => Except.ok (a.1, a.2 ++
          [{ target := .allInRoom (serverRoom serverId)
             event := .USER_LEFT userId serverId }])
    match result with
    | .ok r => r
    | .error r => r

/-! ## Theorems -/

theorem testBit_256 (i : Nat) : Nat.testBit 256 i = decide (8 = i) := by
  rw [show (256 : Nat) = 2 ^ 8 from rfl]
  exact Nat.testBit_two_pow

theorem and_admin_eq_iff (m : Nat) :
    m &&& ADMIN = ADMIN ↔ m.testBit 8 = true := by
  show m &&& 256 = 256 ↔ m.testBit 8 = true
  constructor
  · intro h
    have h8 := congrArg (fun x => x.testBit 8) h
    simpa [Nat.testBit_and, testBit_256] using h8
  · intro h
    apply Nat.eq_of_testBit_eq
    intro i
    by_cases hi : (8 : Nat) = i
    · subst hi
      simp [Nat.testBit_and, testBit_256, h]
    · simp [Nat.testBit_and, testBit_256, hi]

theorem lor_admin_eq_iff (m : Nat) :
    m ||| ADMIN = m ↔ m.testBit 8 = true := by
  show m ||| 256 = m ↔ m.testBit 8 = true
  constructor
  · intro h
    have h8 := congrArg (fun x => x.testBit 8) h
    simp [Nat.testBit_or, testBit_256] at h8
    exact h8
  · intro h
    apply Nat.eq_of_testBit_eq
    intro i
    by_cases hi : (8 : Nat) = i
    · subst hi
      simp [Nat.testBit_or, testBit_256, h]
    · simp [Nat.testBit_or, testBit_256, hi]

/-- C5: `hasPermission(m, f)` returns true iff the ADMIN bit is set in `m`
(equivalently `(m ||| ADMIN) = m`) or `(m &&& f) = f`; a mask equal to
ADMIN alone passes every flag check, and the mask `CONNECT ||| SPEAK = 3`
fails the MANAGE_ROLES check. -/
theorem hasPermission_spec :
    (∀ m f : Nat, hasPermission m f = true ↔ (m ||| ADMIN = m ∨ m &&& f = f)) ∧
    (∀ f : Nat, hasPermission ADMIN f = true) ∧
    (CONNECT ||| SPEAK = 3 ∧ hasPermission (CONNECT ||| SPEAK) MANAGE_ROLES = false) := by
  refine ⟨?_, ?_, by decide⟩
  · intro m f
    unfold hasPermission
    by_cases h : m &&& ADMIN = ADMIN
    · simp [h, Or.inl ((lor_admin_eq_iff m).mpr ((and_admin_eq_iff m).mp h))]
    · have h' : ¬ m ||| ADMIN = m := fun hc =>
        h ((and_admin_eq_iff m).mpr ((lor_admin_eq_iff m).mp hc))
      simp [h, h']
  · intro f
    rfl

/-- C8: `joinChannel(u, c)` followed immediately by `leaveServer(u, s)`
leaves `u` absent from the server-`s` member set, absent from the
channel-`c` member set, and with no metadata hash for `u` — from any
starting state, for any non-empty channel id. -/
theorem joinChannel_leaveServer_clears (st : PresenceState)
    (u s c : String) (hc : ¬ c.isEmpty) :
    let st' := leaveServer (joinChannel st u c) u s
    u ∉ st'.serverMembers s ∧ u ∉ st'.channelMembers c ∧
      st'.userHash u = none := by
  intro st'
  have hhash : (joinChannel st u c).userHash u =
      some { serverId := ((st.userHash u).map (·.serverId)).getD none
             channelId := some c
             nickname := ((st.userHash u).map (·.nickname)).getD none } := by
    simp [joinChannel]
  refine ⟨?_, ?_, ?_⟩
  · show u ∉ st'.serverMembers s
    simp only [st', leaveServer, hhash]
    simp [sremList, hc, List.mem_filter]
  · show u ∉ st'.channelMembers c
    simp only [st', leaveServer, hhash]
    simp [sremList, hc, List.mem_filter]
  · show st'.userHash u = none
    simp only [st', leaveServer, hhash]
    simp [hc]

/-- Witness for C8 at a concrete state. -/
theorem joinChannel_leaveServer_clears_witness :
    let st0 : PresenceState :=
      { serverMembers := fun _ => ["u"]
        channelMembers := fun _ => []
        userHash := fun _ => none }
    let st' := leaveServer (joinChannel st0 "u" "c") "u" "s"
    "u" ∉ st'.serverMembers "s" ∧ "u" ∉ st'.channelMembers "c" ∧
      st'.userHash "u" = none := by
  intro st0 st'
  exact joinChannel_leaveServer_clears st0 "u" "s" "c" (by decide)

theorem mem_fetchMessages {store : List StoredMessage} {channelId : String}
    {before limit : Option Nat} {m : StoredMessage}
    (h : m ∈ fetchMessages store channelId before limit) :
    m ∈ store ∧ m.channelId = channelId ∧
      ∀ b, before = some b → m.createdAt < b := by
  unfold fetchMessages at h
  rw [List.mem_reverse] at h
  have h' := List.mem_insertionSort createdDesc |>.mp (List.mem_of_mem_take h)
  have h'' := List.mem_filter.mp h'
  refine ⟨h''.1, ?_, ?_⟩
  · have := h''.2
    cases before <;> simp_all
  · intro b hb
    subst hb
    have := h''.2
    simp_all

/-- C3: FETCH_MESSAGES returns at most `min(limit, 100)` messages (50 when
`limit` is omitted), all from the requested channel and strictly older
than `before` when supplied; the result is sorted chronologically
ascending; and any matching stored message left out is no newer than every
returned one (the returned messages are the most recent). -/
theorem fetchMessages_spec (store : List StoredMessage) (channelId : String)
    (before limit : Option Nat) :
    (fetchMessages store channelId before limit).length ≤
        min (limit.getD 50) 100 ∧
    (∀ m ∈ fetchMessages store channelId before limit,
        m ∈ store ∧ m.channelId = channelId) ∧
    (∀ b, before = some b → ∀ m ∈ fetchMessages store channelId before limit,
        m.createdAt < b) ∧
    (fetchMessages store channelId before limit).Pairwise
        (fun a b => a.createdAt ≤ b.createdAt) ∧
    (∀ m ∈ store, m.channelId = channelId →
      (∀ b, before = some b → m.createdAt < b) →
      m ∉ fetchMessages store channelId before limit →
      ∀ r ∈ fetchMessages store channelId before limit,
        m.createdAt ≤ r.createdAt) := by
  refine ⟨?_, ?_, ?_, ?_, ?_⟩
  · unfold fetchMessages
    simp only [List.length_reverse, List.length_take]
    exact Nat.min_le_left _ _
  · intro m hm
    exact ⟨(mem_fetchMessages hm).1, (mem_fetchMessages hm).2.1⟩
  · intro b hb m hm
    exact (mem_fetchMessages hm).2.2 b hb
  · have hs : List.Pairwise createdDesc
        ((store.filter (fun m =>
          m.channelId = channelId &&
            match before with
            | some b => m.createdAt < b
            | none => true)).insertionSort createdDesc) :=
      List.sorted_insertionSort createdDesc _
    unfold fetchMessages
    rw [List.pairwise_reverse]
    exact (hs.sublist (List.take_sublist _ _) : _)
  · intro m hmem hch hbef hnot r hr
    have hmf : m ∈ store.filter (fun m =>
        m.channelId = channelId &&
          match before with
          | some b => m.createdAt < b
          | none => true) := by
      rw [List.mem_filter]
      refine ⟨hmem, ?_⟩
      cases hb : before with
      | none => simp [hch]
      | some b => simp [hch, hbef b hb]
    have hms : m ∈ (store.filter (fun m =>
        m.channelId = channelId &&
          match before with
          | some b => m.createdAt < b
          | none => true)).insertionSort createdDesc :=
      (List.mem_insertionSort createdDesc).mpr hmf
    have hs : List.Pairwise createdDesc
        ((store.filter (fun m =>
          m.channelId = channelId &&
            match before with
            | some b => m.createdAt < b
            | none => true)).insertionSort createdDesc) :=
      List.sorted_insertionSort createdDesc _
    set sorted := (store.filter (fun m =>
        m.channelId = channelId &&
          match before with
          | some b => m.createdAt < b
          | none => true)).insertionSort createdDesc with hsorted
    set takeN := min (limit.getD 50) 100 with htakeN
    have hnot' : m ∉ sorted.take takeN := by
      intro hcon
      apply hnot
      unfold fetchMessages
      rw [List.mem_reverse]
      exact hcon
    have hr' : r ∈ sorted.take takeN := by
      have := hr
      unfold fetchMessages at this
      rw [List.mem_reverse] at this
      exact this
    have hdrop : m ∈ sorted.drop takeN := by
      have := (List.take_append_drop takeN sorted) ▸ hms
      rcases List.mem_append.mp this with h | h
      · exact absurd h hnot'
      · exact h
    have hsplit := List.pairwise_append.mp
      ((List.take_append_drop takeN sorted).symm ▸ hs)
    exact hsplit.2.2 r hr' m hdrop

def exMsgA : StoredMessage :=
  { id := "m1", channelId := "c1", userId := "u", content := "hi"
    createdAt := 5 }

def exMsgB : StoredMessage :=
  { id := "m2", channelId := "c1", userId := "u", content := "yo"
    createdAt := 7 }

def exMsgOld : StoredMessage :=
  { id := "m0", channelId := "c1", userId := "u", content := "old"
    createdAt := 3 }

/-- Witness for C3: with three stored messages and `limit = 2`, the oldest
is excluded and is no newer than a returned one; with `before = 10` a
returned message is strictly older than the cursor. -/
theorem fetchMessages_spec_witness :
    exMsgOld.createdAt ≤ exMsgA.createdAt ∧ exMsgA.createdAt < 10 := by
  constructor
  · exact (fetchMessages_spec [exMsgB, exMsgA, exMsgOld] "c1" none
      (some 2)).2.2.2.2 exMsgOld (by decide) rfl
      (fun b hb => nomatch hb) (by decide) exMsgA (by decide)
  · exact (fetchMessages_spec [exMsgB, exMsgA, exMsgOld] "c1" (some 10)
      (some 2)).2.2.1 10 rfl exMsgA (by decide)

theorem buildNode_channel (channels : List Channel) (fuel : Nat) (c : Channel) :
    (buildNode channels fuel c).channel = c := by
  cases fuel <;> rfl

theorem sortSiblings_sorted (l : List Channel) :
    (sortSiblings l).Pairwise posLe := by
  rcases l with _ | ⟨a, _ | ⟨b, t⟩⟩
  · simp [sortSiblings]
  · simp [sortSiblings, posLe]
  · rw [sortSiblings, if_pos (by simp)]
    exact List.sorted_insertionSort posLe _

theorem mem_allNodesList {n : ChannelTreeNode} :
    ∀ {ts : List ChannelTreeNode},
      n ∈ allNodesList ts ↔ ∃ t ∈ ts, n ∈ allNodes t := by
  intro ts
  induction ts with
  | nil => simp [allNodesList]
  | cons t ts ih =>
    simp only [allNodesList, List.mem_append, ih, List.mem_cons]
    constructor
    · rintro (h | ⟨t', ht', hn⟩)
      · exact ⟨t, Or.inl rfl, h⟩
      · exact ⟨t', Or.inr ht', hn⟩
    · rintro ⟨t', ht' | ht', hn⟩
      · exact Or.inl (ht' ▸ hn)
      · exact Or.inr ⟨t', ht', hn⟩

theorem buildNode_children_sorted (channels : List Channel) :
    ∀ (fuel : Nat) (c : Channel),
      ∀ n ∈ allNodes (buildNode channels fuel c),
        n.children.Pairwise
          (fun a b => a.channel.position ≤ b.channel.position) := by
  intro fuel
  induction fuel with
  | zero =>
    intro c n hn
    simp [buildNode, allNodes, allNodesList] at hn
    subst hn
    simp [ChannelTreeNode.children]
  | succ fuel ih =>
    intro c n hn
    simp only [buildNode, allNodes, List.mem_cons] at hn
    rcases hn with hn | hn
    · subst hn
      simp only [ChannelTreeNode.children]
      rw [List.pairwise_map]
      have := sortSiblings_sorted (childRecords channels c.id)
      refine this.imp ?_
      intro a b hab
      simpa [buildNode_channel] using hab
    · rcases mem_allNodesList.mp hn with ⟨t, ht, hnt⟩
      rcases List.mem_map.mp ht with ⟨r, _, hr⟩
      exact ih r n (hr ▸ hnt)

/-- C6 (amended): `buildChannelTree` sorts the roots list and every
children list in the returned forest by ascending `position`.  Siblings
sharing a `position` keep their input order (the JS sort is stable); `id`
is *not* consulted — see the counterexample. -/
theorem buildChannelTree_sorted (channels : List Channel) :
    (buildChannelTree channels).Pairwise
      (fun a b => a.channel.position ≤ b.channel.position) ∧
    ∀ t ∈ buildChannelTree channels, ∀ n ∈ allNodes t,
      n.children.Pairwise
        (fun a b => a.channel.position ≤ b.channel.position) := by
  constructor
  · unfold buildChannelTree
    rw [List.pairwise_map]
    have := List.sorted_insertionSort posLe (rootRecords channels)
    refine this.imp ?_
    intro a b hab
    simpa [buildNode_channel] using hab
  · intro t ht n hn
    rcases List.mem_map.mp ht with ⟨r, _, hr⟩
    exact buildNode_children_sorted channels channels.length r n (hr ▸ hn)

def chTieA : Channel :=
  { id := "a", serverId := "s", name := "A", type := .TEXT
    parentId := none, position := 0, maxUsers := none, createdAt := "t" }

def chTieB : Channel :=
  { id := "b", serverId := "s", name := "B", type := .TEXT
    parentId := none, position := 0, maxUsers := none, createdAt := "t" }

/-- C6 counterexample: two roots `a` and `b` share `position = 0`.  With
input order `[b, a]` the builder returns the roots as `[b, a]`; with input
order `[a, b]` it returns `[a, b]`.  Equal-position siblings therefore
keep their input order (the comparator reads `position` only and the sort
is stable) — the relative order of a tied pair is **not** a function of
their ids, so `id` is not a tiebreaker. -/
theorem buildChannelTree_id_tiebreak_counterexample :
    chTieA.position = chTieB.position ∧
    (buildChannelTree [chTieB, chTieA]).map (fun n => n.channel.id)
        = ["b", "a"] ∧
    (buildChannelTree [chTieA, chTieB]).map (fun n => n.channel.id)
        = ["a", "b"] := by
  refine ⟨rfl, ?_, ?_⟩ <;> decide

/-- Witness for C5 at concrete masks: ADMIN alone passes KICK_USER, and
mask `3` fails MANAGE_ROLES. -/
theorem hasPermission_spec_witness :
    hasPermission ADMIN KICK_USER = true ∧
    hasPermission (CONNECT ||| SPEAK) MANAGE_ROLES = false := by
  have h := hasPermission_spec
  exact ⟨h.2.1 KICK_USER, h.2.2.2⟩

theorem self_mem_allNodes (t : ChannelTreeNode) : t ∈ allNodes t := by
  cases t
  simp [allNodes]

/-- Witness for C6 at a concrete forest: the roots and a concrete node's
children are sorted by position. -/
theorem buildChannelTree_sorted_witness :
    (buildChannelTree [chTieA, chTieB]).Pairwise
      (fun a b => a.channel.position ≤ b.channel.position) ∧
    (buildNode [chTieB, chTieA] 2 chTieB).children.Pairwise
      (fun a b => a.channel.position ≤ b.channel.position) := by
  constructor
  · exact (buildChannelTree_sorted [chTieA, chTieB]).1
  · refine (buildChannelTree_sorted [chTieB, chTieA]).2
      (buildNode [chTieB, chTieA] 2 chTieB) ?_
      (buildNode [chTieB, chTieA] 2 chTieB) (self_mem_allNodes _)
    rw [show buildChannelTree [chTieB, chTieA] =
      [buildNode [chTieB, chTieA] 2 chTieB,
       buildNode [chTieB, chTieA] 2 chTieA] from rfl]
    exact List.mem_cons_self _ _

def exCreatedCh : Channel :=
  { id := "c1", serverId := "s1", name := "general", type := .TEXT
    parentId := none, position := 0, maxUsers := none, createdAt := "t0" }

/-- C1: the CREATE_CHANNEL, DELETE_CHANNEL and UPDATE_CHANNEL handlers
never call `requirePermission` — they take no permission information at
all — so a session whose effective mask is the seeded default member mask
`7` (`CONNECT ||| SPEAK ||| SEND_MESSAGES`, rejected by `hasPermission`
for both CREATE_CHANNEL and MANAGE_CHANNELS and lacking ADMIN) still gets
a success acknowledgement and the store mutation on all three events. -/
theorem channelHandlers_ignore_permissions :
    hasPermission 7 CREATE_CHANNEL = false ∧
    hasPermission 7 MANAGE_CHANNELS = false ∧
    hasPermission 7 ADMIN = false ∧
    (createChannelHandler [] ⟨"s1", "general", .TEXT, none⟩ "c1" "t0").1.success
        = true ∧
    (createChannelHandler [] ⟨"s1", "general", .TEXT, none⟩ "c1" "t0").2.1
        = [exCreatedCh] ∧
    (deleteChannelHandler [exCreatedCh] "c1").1.success = true ∧
    (deleteChannelHandler [exCreatedCh] "c1").2.1 = [] ∧
    (updateChannelHandler [exCreatedCh] ⟨"c1", some "renamed", none⟩).1.success
        = true ∧
    (updateChannelHandler [exCreatedCh] ⟨"c1", some "renamed", none⟩).2.1.map
        (fun c => c.name) = ["renamed"] := by
  decide

def exVoiceCh : Channel :=
  { id := "v1", serverId := "s1", name := "Lounge", type := .VOICE
    parentId := none, position := 0, maxUsers := none, createdAt := "t" }

def exTextCh : Channel :=
  { id := "t1", serverId := "s1", name := "general", type := .TEXT
    parentId := none, position := 0, maxUsers := none, createdAt := "t" }

/-- C2 counterexample: SEND_MESSAGE never checks the channel type.  A
message to an existing channel of type VOICE — not TEXT-capable under the
claim's reading — is persisted and acknowledged as a success, where the
claim requires the handler to verify the channel is TEXT-capable before
persisting. -/
theorem sendMessage_voice_channel_counterexample :
    exVoiceCh.type = ChannelType.VOICE ∧
    (sendMessageHandler SEND_MESSAGES ⟨some "u1", "nick", some "s1", some "v1"⟩
        [exVoiceCh] [] "v1" "hello" "m1" 1).1.success = true ∧
    (sendMessageHandler SEND_MESSAGES ⟨some "u1", "nick", some "s1", some "v1"⟩
        [exVoiceCh] [] "v1" "hello" "m1" 1).2.1 =
      [{ id := "m1", channelId := "v1", userId := "u1", content := "hello"
         createdAt := 1 }] := by
  decide

/-- C2 (amended): for a joined session holding SEND_MESSAGES, the handler
rejects empty (trimmed) content with a negative ack, persisting and
broadcasting nothing; rejects a missing channel likewise; and otherwise —
for a channel of **any** type, no TEXT-capability check — persists the
trimmed content and broadcasts MESSAGE_RECEIVED to the full server room. -/
theorem sendMessage_spec (userPerms : Nat) (u n s : String)
    (cur : Option String) (channels : List Channel)
    (msgs : List StoredMessage) (channelId content newId : String) (now : Nat)
    (hperm : hasPermission userPerms SEND_MESSAGES = true) :
    ((jsTrim content).data.isEmpty = true →
      sendMessageHandler userPerms ⟨some u, n, some s, cur⟩ channels msgs
          channelId content newId now = ({ success := false }, msgs, [])) ∧
    ((jsTrim content).data.isEmpty = false →
      (channels.find? (fun c => c.id = channelId) = none →
        sendMessageHandler userPerms ⟨some u, n, some s, cur⟩ channels msgs
            channelId content newId now = ({ success := false }, msgs, [])) ∧
      (∀ ch, channels.find? (fun c => c.id = channelId) = some ch →
        sendMessageHandler userPerms ⟨some u, n, some s, cur⟩ channels msgs
            channelId content newId now =
          ({ success := true, messageId := some newId },
            msgs ++ [{ id := newId, channelId := channelId, userId := u
                       content := jsTrim content, createdAt := now }],
            [{ target := .allInRoom (serverRoom s)
               event := .MESSAGE_RECEIVED
                 { id := newId, channelId := channelId, userId := u
                   nickname := n, content := jsTrim content
                   createdAt := now } }]))) := by
  constructor
  · intro h
    simp [sendMessageHandler, h]
  · intro h
    constructor
    · intro hfind
      simp [sendMessageHandler, h, requirePermission, hperm, hfind]
    · intro ch hfind
      simp [sendMessageHandler, h, requirePermission, hperm, hfind]

/-- Witness for C2 at a concrete TEXT channel: `" hi "` is trimmed,
persisted and acknowledged. -/
theorem sendMessage_spec_witness :
    (sendMessageHandler SEND_MESSAGES ⟨some "u1", "nick", some "s1", none⟩
        [exTextCh] [] "t1" " hi " "m1" 5).2.1 =
      [{ id := "m1", channelId := "t1", userId := "u1"
         content := jsTrim " hi ", createdAt := 5 }] := by
  have h := (sendMessage_spec SEND_MESSAGES "u1" "nick" "s1" none [exTextCh]
    [] "t1" " hi " "m1" 5 (by decide)).2
  have h2 := (h (by decide)).2 exTextCh (by decide)
  rw [h2]
  rfl

theorem delConsumer_cons_self {a : String} {v : Consumer}
    {t : List (String × Consumer)} (h : a = cid) :
    delConsumer ((a, v) :: t) cid = delConsumer t cid := by
  simp [delConsumer, List.filter_cons, h]

theorem delConsumer_cons_keep {a : String} {v : Consumer}
    {t : List (String × Consumer)} (h : ¬ a = cid) :
    delConsumer ((a, v) :: t) cid = (a, v) :: delConsumer t cid := by
  simp [delConsumer, List.filter_cons, h]

theorem lookup_delConsumer_self (m : List (String × Consumer)) (cid : String) :
    (delConsumer m cid).lookup cid = none := by
  induction m with
  | nil => rfl
  | cons p t ih =>
    obtain ⟨a, v⟩ := p
    by_cases h : a = cid
    · rw [delConsumer_cons_self h]
      exact ih
    · rw [delConsumer_cons_keep h, List.lookup_cons]
      have hcb : (cid == a) = false := by
        simp
        exact Ne.symm h
      rw [hcb]
      exact ih

theorem lookup_delConsumer_other (m : List (String × Consumer))
    (cid k : String) (h : k ≠ cid) :
    (delConsumer m cid).lookup k = m.lookup k := by
  induction m with
  | nil => rfl
  | cons p t ih =>
    obtain ⟨a, v⟩ := p
    by_cases hp : a = cid
    · rw [delConsumer_cons_self hp, List.lookup_cons]
      have hcb : (k == a) = false := by
        simp
        exact hp ▸ h
      rw [hcb]
      exact ih
    · rw [delConsumer_cons_keep hp, List.lookup_cons, List.lookup_cons]
      cases hcb : (k == a) with
      | true => rfl
      | false => exact ih

theorem lookup_setConsumer_self (m : List (String × Consumer))
    (k : String) (v : Consumer) :
    (setConsumer m k v).lookup k = some v := by
  simp [setConsumer, List.lookup]

/-- C7: for a CONSUME request from a session that is in a channel whose
router exists and whose receive transport is established: when the router
cannot consume the producer with the supplied (or default) capabilities,
the ack is negative and the consumer map is untouched; otherwise the new
consumer is created paused, stored under its id in the session's consumer
map, and the ack carries its id, the source producer id, its kind and its
RTP parameters. -/
theorem consumeHandler_spec (r : RouterModel) (factory : ConsumerFactory)
    (u n s ch : String) (st : Option Transport) (t : Transport)
    (pr : Option Producer) (cons : List (String × Consumer))
    (producerId : String) (rtpCapabilities : Option String)
    (hcaps : rtpCapabilities.getD r.rtpCapabilities = caps) :
    (r.canConsume producerId caps = false →
      consumeHandler (some r) factory ⟨some u, n, some s, some ch⟩
          (some ⟨st, some t, pr, cons⟩) producerId rtpCapabilities =
        (.err "Cannot consume producer", some ⟨st, some t, pr, cons⟩)) ∧
    (r.canConsume producerId caps = true →
      (consumeHandler (some r) factory ⟨some u, n, some s, some ch⟩
          (some ⟨st, some t, pr, cons⟩) producerId rtpCapabilities).1 =
        .ok { id := factory.newConsumerId, producerId := producerId
              kind := factory.newKind
              rtpParameters := factory.newRtpParameters } ∧
      (consumeHandler (some r) factory ⟨some u, n, some s, some ch⟩
          (some ⟨st, some t, pr, cons⟩) producerId rtpCapabilities).2 =
        some ⟨st, some t, pr,
          setConsumer cons factory.newConsumerId
            { id := factory.newConsumerId, producerId := producerId
              kind := factory.newKind
              rtpParameters := factory.newRtpParameters
              paused := true }⟩ ∧
      ((consumeHandler (some r) factory ⟨some u, n, some s, some ch⟩
          (some ⟨st, some t, pr, cons⟩) producerId
          rtpCapabilities).2.bind
            (fun s' => s'.consumers.lookup factory.newConsumerId)) =
        some { id := factory.newConsumerId, producerId := producerId
               kind := factory.newKind
               rtpParameters := factory.newRtpParameters
               paused := true }) := by
  constructor
  · intro h
    simp [consumeHandler, hcaps, h]
  · intro h
    refine ⟨?_, ?_, ?_⟩
    · simp [consumeHandler, hcaps, h]
    · simp [consumeHandler, hcaps, h]
    · simp [consumeHandler, hcaps, h, lookup_setConsumer_self]

def exFactory : ConsumerFactory :=
  { newConsumerId := "cons1", newKind := "audio", newRtpParameters := "rtp" }

def exRouterYes : RouterModel :=
  { rtpCapabilities := "caps", canConsume := fun _ _ => true }

def exRouterNo : RouterModel :=
  { rtpCapabilities := "caps", canConsume := fun _ _ => false }

/-- Witness for C7: a consumable producer yields a positive ack with a
paused stored consumer; a non-consumable one yields the negative ack. -/
theorem consumeHandler_spec_witness :
    (consumeHandler (some exRouterYes) exFactory
        ⟨some "u", "n", some "s", some "c"⟩
        (some ⟨none, some ⟨"t2"⟩, none, []⟩) "p1" none).1 =
      .ok { id := "cons1", producerId := "p1", kind := "audio"
            rtpParameters := "rtp" } ∧
    (consumeHandler (some exRouterNo) exFactory
        ⟨some "u", "n", some "s", some "c"⟩
        (some ⟨none, some ⟨"t2"⟩, none, []⟩) "p1" none).1 =
      .err "Cannot consume producer" := by
  constructor
  · exact ((consumeHandler_spec exRouterYes exFactory "u" "n" "s" "c" none
      ⟨"t2"⟩ none [] "p1" none rfl).2 rfl).1
  · exact congrArg Prod.fst ((consumeHandler_spec exRouterNo exFactory "u"
      "n" "s" "c" none ⟨"t2"⟩ none [] "p1" none rfl).1 rfl)

/-- C9: CLOSE_PRODUCER only acts on the calling session's own producer —
a matching id closes it, clears the session's producer reference and
broadcasts PRODUCER_CLOSED to the rest of the channel room; any other id
(including producers owned by other sessions) changes nothing and emits
nothing. -/
theorem closeProducer_spec (u n s ch pid : String)
    (session : UserVoiceSession) (pr : Producer)
    (hpr : session.producer = some pr) :
    (pr.id = pid →
      closeProducerHandler ⟨some u, n, some s, some ch⟩ (some session) pid =
        (some { session with producer := none },
          [{ target := .othersInRoom (channelRoom ch)
             event := .PRODUCER_CLOSED u pid }])) ∧
    (pr.id ≠ pid →
      closeProducerHandler ⟨some u, n, some s, some ch⟩ (some session) pid =
        (some session, [])) := by
  constructor
  · intro h
    simp [closeProducerHandler, hpr, h]
  · intro h
    simp [closeProducerHandler, hpr, h]

def exOwnedSession : UserVoiceSession :=
  { sendTransport := none, recvTransport := none
    producer := some { id := "p1" }, consumers := [] }

/-- Witness for C9: closing the own producer id clears it; a foreign id is
a no-op. -/
theorem closeProducer_spec_witness :
    closeProducerHandler ⟨some "u", "n", some "s", some "c"⟩
        (some exOwnedSession) "p1" =
      (some { exOwnedSession with producer := none },
        [{ target := .othersInRoom (channelRoom "c")
           event := .PRODUCER_CLOSED "u" "p1" }]) ∧
    closeProducerHandler ⟨some "u", "n", some "s", some "c"⟩
        (some exOwnedSession) "stranger" =
      (some exOwnedSession, []) := by
  constructor
  · exact (closeProducer_spec "u" "n" "s" "c" "p1" exOwnedSession ⟨"p1"⟩
      rfl).1 rfl
  · exact (closeProducer_spec "u" "n" "s" "c" "stranger" exOwnedSession
      ⟨"p1"⟩ rfl).2 (by decide)

/-- C10: the `producerclose` cascade deletes exactly the closed consumer
from the consuming session's map and sends the consuming socket a
PRODUCER_CLOSED event whose `userId` field is the empty string — not the
id of the user who owned the producer. -/
theorem producerclose_cascade_spec (s : UserVoiceSession)
    (cid pid : String) :
    (onProducerclose s cid pid).1.consumers.lookup cid = none ∧
    (∀ k, k ≠ cid →
      (onProducerclose s cid pid).1.consumers.lookup k =
        s.consumers.lookup k) ∧
    (onProducerclose s cid pid).2.target = .caller ∧
    (onProducerclose s cid pid).2.event = .PRODUCER_CLOSED "" pid := by
  refine ⟨?_, ?_, rfl, rfl⟩
  · exact lookup_delConsumer_self s.consumers cid
  · intro k hk
    exact lookup_delConsumer_other s.consumers cid k hk

def exConsumerA : Consumer :=
  { id := "cA", producerId := "pA", kind := "audio", rtpParameters := "ra"
    paused := true }

def exConsumerB : Consumer :=
  { id := "cB", producerId := "pB", kind := "audio", rtpParameters := "rb"
    paused := false }

def exConsumingSession : UserVoiceSession :=
  { sendTransport := none, recvTransport := some { id := "rt" }
    producer := none
    consumers := [("cA", exConsumerA), ("cB", exConsumerB)] }

/-- Witness for C10: closing `cA`'s producer removes `cA`, keeps `cB`, and
emits the anonymous PRODUCER_CLOSED to the caller. -/
theorem producerclose_cascade_spec_witness :
    (onProducerclose exConsumingSession "cA" "pA").1.consumers.lookup "cA"
        = none ∧
    (onProducerclose exConsumingSession "cA" "pA").1.consumers.lookup "cB"
        = some exConsumerB ∧
    (onProducerclose exConsumingSession "cA" "pA").2.event =
      .PRODUCER_CLOSED "" "pA" := by
  have h := producerclose_cascade_spec exConsumingSession "cA" "pA"
  refine ⟨h.1, ?_, h.2.2.2⟩
  rw [h.2.1 "cB" (by decide)]
  decide

theorem final_presence_facts (p : PresenceState) (u ch s : String) :
    u ∉ (leaveServer (leaveChannel p u ch) u s).channelMembers ch ∧
    u ∉ (leaveServer (leaveChannel p u ch) u s).serverMembers s ∧
    (leaveServer (leaveChannel p u ch) u s).userHash u = none := by
  have hq : (leaveChannel p u ch).userHash u =
      some { serverId := ((p.userHash u).map (·.serverId)).getD none
             channelId := some ""
             nickname := ((p.userHash u).map (·.nickname)).getD none } := by
    simp [leaveChannel]
  have hemp : ("" : String).isEmpty = true := rfl
  refine ⟨?_, ?_, ?_⟩
  · simp only [leaveServer, hq]
    simp [hemp, leaveChannel, sremList, List.mem_filter]
  · simp only [leaveServer, hq]
    simp [hemp, sremList, List.mem_filter]
  · simp only [leaveServer, hq]
    simp [hemp]

/-- C4 (amended): on disconnect of a session that is in a channel and has
a producer, the fault-free run emits exactly PRODUCER_CLOSED to the
channel room, then PRESENCE_UPDATE to the server room, then USER_LEFT to
the server room — after clearing channel presence, server presence, the
metadata hash and the voice session.  However, because the whole cleanup
sits in a single try/catch, an error raised at any step is only logged
and **aborts** the remaining steps: every faulty run emits a prefix of the
fault-free sequence. -/
theorem disconnect_spec (u n s ch : String) (st : ServerState)
    (vs : UserVoiceSession) (pr : Producer)
    (hvs : st.voiceSessions ch u = some vs) (hpr : vs.producer = some pr) :
    ((disconnectHandler none ⟨some u, n, some s, some ch⟩ st).2 =
      [{ target := .othersInRoom (channelRoom ch)
         event := .PRODUCER_CLOSED u pr.id },
       { target := .allInRoom (serverRoom s)
         event := .PRESENCE_UPDATE ch
           ((leaveChannel st.presence u ch).channelMembers ch) },
       { target := .allInRoom (serverRoom s)
         event := .USER_LEFT u s }]) ∧
    u ∉ (disconnectHandler none ⟨some u, n, some s, some ch⟩
        st).1.presence.channelMembers ch ∧
    u ∉ (disconnectHandler none ⟨some u, n, some s, some ch⟩
        st).1.presence.serverMembers s ∧
    (disconnectHandler none ⟨some u, n, some s, some ch⟩
        st).1.presence.userHash u = none ∧
    (disconnectHandler none ⟨some u, n, some s, some ch⟩
        st).1.voiceSessions ch u = none ∧
    (∀ failAt, ∃ suffix,
      (disconnectHandler failAt ⟨some u, n, some s, some ch⟩ st).2 ++ suffix
        = (disconnectHandler none ⟨some u, n, some s, some ch⟩ st).2) := by
  have hrun : disconnectHandler none ⟨some u, n, some s, some ch⟩ st =
      ({ presence := leaveServer (leaveChannel st.presence u ch) u s
         voiceSessions := fun c u' =>
           if c = ch ∧ u' = u then none else st.voiceSessions c u' },
        [{ target := .othersInRoom (channelRoom ch)
           event := .PRODUCER_CLOSED u pr.id },
         { target := .allInRoom (serverRoom s)
           event := .PRESENCE_UPDATE ch
             ((leaveChannel st.presence u ch).channelMembers ch) },
         { target := .allInRoom (serverRoom s)
           event := .USER_LEFT u s }]) := by
    simp [disconnectHandler, hvs, hpr, Bind.bind, Except.bind]
  refine ⟨by rw [hrun], ?_, ?_, ?_, ?_, ?_⟩
  · rw [hrun]
    exact (final_presence_facts st.presence u ch s).1
  · rw [hrun]
    exact (final_presence_facts st.presence u ch s).2.1
  · rw [hrun]
    exact (final_presence_facts st.presence u ch s).2.2
  · rw [hrun]
    simp
  · intro failAt
    rw [hrun]
    cases failAt with
    | none =>
      rw [hrun]
      exact ⟨[], by simp⟩
    | some stp =>
      cases stp with
      | cleanupVoice =>
        refine ⟨[{ target := .allInRoom (serverRoom s)
                   event := .PRESENCE_UPDATE ch
                     ((leaveChannel st.presence u ch).channelMembers ch) },
                 { target := .allInRoom (serverRoom s)
                   event := .USER_LEFT u s }], ?_⟩
        have : (disconnectHandler (some .cleanupVoice)
            ⟨some u, n, some s, some ch⟩ st).2 =
            [{ target := .othersInRoom (channelRoom ch)
               event := .PRODUCER_CLOSED u pr.id }] := by
          simp [disconnectHandler, hvs, hpr, Bind.bind, Except.bind]
        rw [this]
        rfl
      | leaveChannelStep =>
        refine ⟨[{ target := .allInRoom (serverRoom s)
                   event := .PRESENCE_UPDATE ch
                     ((leaveChannel st.presence u ch).channelMembers ch) },
                 { target := .allInRoom (serverRoom s)
                   event := .USER_LEFT u s }], ?_⟩
        have : (disconnectHandler (some .leaveChannelStep)
            ⟨some u, n, some s, some ch⟩ st).2 =
            [{ target := .othersInRoom (channelRoom ch)
               event := .PRODUCER_CLOSED u pr.id }] := by
          simp [disconnectHandler, hvs, hpr, Bind.bind, Except.bind]
        rw [this]
        rfl
      | readOccupants =>
        refine ⟨[{ target := .allInRoom (serverRoom s)
                   event := .PRESENCE_UPDATE ch
                     ((leaveChannel st.presence u ch).channelMembers ch) },
                 { target := .allInRoom (serverRoom s)
                   event := .USER_LEFT u s }], ?_⟩
        have : (disconnectHandler (some .readOccupants)
            ⟨some u, n, some s, some ch⟩ st).2 =
            [{ target := .othersInRoom (channelRoom ch)
               event := .PRODUCER_CLOSED u pr.id }] := by
          simp [disconnectHandler, hvs, hpr, Bind.bind, Except.bind]
        rw [this]
        rfl
      | leaveServerStep =>
        refine ⟨[{ target := .allInRoom (serverRoom s)
                   event := .USER_LEFT u s }], ?_⟩
        have : (disconnectHandler (some .leaveServerStep)
            ⟨some u, n, some s, some ch⟩ st).2 =
            [{ target := .othersInRoom (channelRoom ch)
               event := .PRODUCER_CLOSED u pr.id },
             { target := .allInRoom (serverRoom s)
               event := .PRESENCE_UPDATE ch
                 ((leaveChannel st.presence u ch).channelMembers ch) }] := by
          simp [disconnectHandler, hvs, hpr, Bind.bind, Except.bind]
        rw [this]
        rfl

def exPresence : PresenceState :=
  { serverMembers := fun _ => ["u"]
    channelMembers := fun _ => ["u"]
    userHash := fun _ =>
      some { serverId := some "s", channelId := some "c"
             nickname := some "n" } }

def exVoiceSession : UserVoiceSession :=
  { sendTransport := none, recvTransport := none
    producer := some { id := "p" }, consumers := [] }

def exServerState : ServerState :=
  { presence := exPresence, voiceSessions := fun _ _ => some exVoiceSession }

/-- C4 counterexample: with an error injected at the channel-presence
cleanup (step 2), the later steps do **not** execute — USER_LEFT is never
broadcast and the user is still in the server presence set — refuting
"an error raised during any earlier step does not prevent the later steps
from executing". -/
theorem disconnect_error_aborts_counterexample :
    ((disconnectHandler (some .leaveChannelStep)
        ⟨some "u", "n", some "s", some "c"⟩ exServerState).2.all
      (fun e => !e.event.isUserLeft)) = true ∧
    "u" ∈ (disconnectHandler (some .leaveChannelStep)
        ⟨some "u", "n", some "s", some "c"⟩
        exServerState).1.presence.serverMembers "s" := by
  constructor
  · rfl
  · decide

/-- Witness for C4 at a concrete state: the fault-free run emits the three
ordered events and clears the server presence. -/
theorem disconnect_spec_witness :
    (disconnectHandler none ⟨some "u", "n", some "s", some "c"⟩
        exServerState).2.length = 3 ∧
    "u" ∉ (disconnectHandler none ⟨some "u", "n", some "s", some "c"⟩
        exServerState).1.presence.serverMembers "s" := by
  have h := disconnect_spec "u" "n" "s" "c" exServerState exVoiceSession
    ⟨"p"⟩ rfl rfl
  constructor
  · rw [h.1]
    rfl
  · exact h.2.2.1

end Reson8
